import Mathlib

/-!
Shallow embedding of the woof tunnel coordinator (server side).

The embedding follows the TypeScript source of the repository:
  - src/server/db/index.ts        : sqlite schema and prepared statements
  - src/server/services/tunnel.ts : createTunnel, closeTunnel, getTunnelUrl,
                                    generateRandomSubdomain, listActiveTunnels
  - src/server/services/nginx.ts  : addTunnelConfig, removeTunnelConfig
  - src/server/services/wireguard.ts : getNextAvailableIp, addPeer, removePeer,
                                    registerClient
  - src/server/api/*.ts           : route handlers and the verifyApiKey middleware

Modelling conventions:
  - sqlite tables become Lean lists of row structures; prepared statements
    become functions on those lists.
  - IPv4 addresses are stored by the code as dotted-quad strings; every write
    is a join of four decimal octets and every read re-splits them, so the
    model represents an address as its four numeric octets.
  - External commands (wg, nginx reload, file writes) are modelled by an
    environment of booleans giving the outcome of each kind of invocation.
  - Fallible operations return an `Except` paired with the database state
    reached at the point of the throw, because the code mutates persistent
    state before some of its throw sites.
  - Randomness (Math.random in generateRandomSubdomain) is modelled by an
    oracle producing, for each draw, the value floor(random * 36) : Fin 36.
-/

/-- One IPv4 address, the four numeric octets of the dotted-quad string the
code stores in the config table. -/
structure Ip where
  a : Nat
  b : Nat
  c : Nat
  d : Nat
deriving DecidableEq, Repr

/-- Status column of the tunnels table; the TypeScript union
"active" | "closed" | "error". -/
inductive TunnelStatus where
  | active
  | closed
  | error
deriving DecidableEq, Repr

/-- One row of the clients table (db/index.ts, CREATE TABLE clients). -/
structure ClientRow where
  id : String
  name : String
  publicKey : String
  privateKey : String
  assignedIp : Ip
  createdAt : Nat
  lastSeen : Option Nat
  isActive : Bool
deriving DecidableEq, Repr

/-- One row of the tunnels table (db/index.ts, CREATE TABLE tunnels). -/
structure TunnelRow where
  id : String
  clientId : String
  localPort : Nat
  publicSubdomain : String
  startTime : Nat
  endTime : Option Nat
  status : TunnelStatus
  bytesSent : Nat
  bytesReceived : Nat
  requestCount : Nat
deriving DecidableEq, Repr

/-- One row of the api_keys table used by the verifyApiKey middleware and
api/keys.ts. -/
structure ApiKeyRow where
  id : String
  name : String
  keyHash : String
  createdAt : Nat
  lastUsed : Option Nat
deriving DecidableEq, Repr

/-- The persistent and external state the coordinator manipulates:
the three sqlite tables, the two config rows the modelled operations read
(`last_assigned_ip`, written as a dotted-quad string, kept parsed here, and
`domain`, read by getTunnelUrl), the set of generated nginx route files
(each file is named tunnel-ID.conf), and the peer entries applied to the
live WireGuard interface (by public key). -/
structure DbState where
  clients : List ClientRow
  tunnels : List TunnelRow
  apiKeys : List ApiKeyRow
  lastAssignedIp : Option Ip
  domainConfig : Option String
  nginxFiles : List String
  wgPeers : List String
deriving DecidableEq, Repr

/-- Outcomes of the external-process invocations an operation may perform:
wg genkey (key generation), wg set (interface mutation), the nginx config
file write (directory checks plus writeFile), and nginx -t / -s reload. -/
structure Env where
  keygenOk : Bool
  wgSetOk : Bool
  nginxWriteOk : Bool
  nginxReloadOk : Bool
deriving Repr

/-- Errors thrown by the modelled service functions, one constructor per
distinct throw site. -/
inductive SvcError where
  | clientNotFound (id : String)
  | subdomainTaken (s : String)
  | tunnelNotFound (id : String)
  | nginxWriteFailed
  | nginxReloadFailed
  | domainNotConfigured
  | keygenFailed
  | wgSetFailed
  | peerNotFound (id : String)
deriving DecidableEq, Repr

/-! ## Prepared statements (db/index.ts) -/

/-- clientsDb.getById : SELECT * FROM clients WHERE id = ? -/
def clientsGetById (st : DbState) (id : String) : Option ClientRow :=
  st.clients.find? (fun c => c.id == id)

/-- tunnelsDb.getById : SELECT * FROM tunnels WHERE id = ? -/
def tunnelsGetById (st : DbState) (id : String) : Option TunnelRow :=
  st.tunnels.find? (fun t => t.id == id)

/-- tunnelsDb.getBySubdomain : SELECT * FROM tunnels WHERE public_subdomain = ?
Note: no filter on status, so closed tunnels are matched too. -/
def tunnelsGetBySubdomain (st : DbState) (s : String) : Option TunnelRow :=
  st.tunnels.find? (fun t => t.publicSubdomain == s)

/-- tunnelsDb.getActiveByClientId : SELECT * FROM tunnels WHERE client_id = ?
AND status = active (the ORDER BY clause does not affect which rows are
returned). -/
def tunnelsGetActiveByClientId (st : DbState) (cid : String) : List TunnelRow :=
  st.tunnels.filter (fun t => t.clientId == cid && t.status == TunnelStatus.active)

/-- tunnelsDb.updateStatus : UPDATE tunnels SET status = ? WHERE id = ? -/
def tunnelsUpdateStatus (st : DbState) (s : TunnelStatus) (id : String) : DbState :=
  { st with tunnels := st.tunnels.map (fun t => if t.id == id then { t with status := s } else t) }

/-- tunnelsDb.updateEndTime : UPDATE tunnels SET end_time = ? WHERE id = ? -/
def tunnelsUpdateEndTime (st : DbState) (e : Nat) (id : String) : DbState :=
  { st with tunnels := st.tunnels.map (fun t => if t.id == id then { t with endTime := some e } else t) }

/-- tunnelsDb.create : INSERT INTO tunnels (id, client_id, local_port,
public_subdomain, start_time, status); end_time starts NULL, counters 0. -/
def tunnelsCreate (st : DbState) (row : TunnelRow) : DbState :=
  { st with tunnels := st.tunnels ++ [row] }

/-- clientsDb.delete : DELETE FROM clients WHERE id = ?.  Because the tunnels
table declares FOREIGN KEY (client_id) REFERENCES clients(id) ON DELETE
CASCADE and the connection runs PRAGMA foreign_keys = ON, the same statement
also deletes every tunnel row owned by the client. -/
def clientsDelete (st : DbState) (id : String) : DbState :=
  { st with
      clients := st.clients.filter (fun c => !(c.id == id))
      tunnels := st.tunnels.filter (fun t => !(t.clientId == id)) }

/-- clientsDb.create : INSERT INTO clients (id, name, public_key, private_key,
assigned_ip, created_at); last_seen starts NULL, is_active defaults to 1. -/
def clientsCreate (st : DbState) (row : ClientRow) : DbState :=
  { st with clients := st.clients ++ [row] }

/-! ## Route provisioner (services/nginx.ts) -/

/-- Name of the route artifact file for a tunnel: tunnel-ID.conf under
NGINX_SITES_PATH. -/
def tunnelFileName (id : String) : String :=
  "tunnel-" ++ id ++ ".conf"

/-- addTunnelConfig: checks and writes the config file (failure of any of
the directory checks or the write throws with no file created), then reloads
nginx (failure throws with the file already written). -/
def addTunnelConfig (env : Env) (st : DbState) (id : String) :
    Except SvcError Unit × DbState :=
  if env.nginxWriteOk then
    let st1 : DbState := { st with nginxFiles := st.nginxFiles ++ [tunnelFileName id] }
    if env.nginxReloadOk then (Except.ok (), st1)
    else (Except.error SvcError.nginxReloadFailed, st1)
  else (Except.error SvcError.nginxWriteFailed, st)

/-- removeTunnelConfig: if the file does not exist, logs and returns with no
error and no reload; otherwise unlinks the file and reloads nginx (reload
failure throws with the file already removed). -/
def removeTunnelConfig (env : Env) (st : DbState) (id : String) :
    Except SvcError Unit × DbState :=
  if st.nginxFiles.contains (tunnelFileName id) then
    let st1 : DbState :=
      { st with nginxFiles := st.nginxFiles.filter (fun f => !(f == tunnelFileName id)) }
    if env.nginxReloadOk then (Except.ok (), st1)
    else (Except.error SvcError.nginxReloadFailed, st1)
  else (Except.ok (), st)

/-! ## Tunnel lifecycle (services/tunnel.ts) -/

/-- The alphabet of generateRandomSubdomain. -/
def subdomainChars : String :=
  "abcdefghijklmnopqrstuvwxyz0123456789"

/-- generateRandomSubdomain: builds a string of `len` characters, each
chars.charAt(Math.floor(Math.random() * chars.length)); the oracle `rand`
gives the i-th draw as a value below 36.  The source default for `len`
is 8 and every caller uses it. -/
def generateRandomSubdomain (rand : Nat → Fin 36) (len : Nat) : String :=
  String.mk ((List.range len).map (fun i => subdomainChars.toList.getD (rand i) 'a'))

/-- getTunnelUrl: reads the config row `domain`; a missing row (or the empty
string, which is falsy in JavaScript) throws; otherwise returns
https://SUBDOMAIN.DOMAIN. -/
def getTunnelUrl (st : DbState) (t : TunnelRow) : Option String :=
  match st.domainConfig with
  | none => none
  | some d => if d == "" then none else some ("https://" ++ t.publicSubdomain ++ "." ++ d)

/-- closeTunnel: looks the tunnel up (missing throws), sets status closed and
end_time, then removes the nginx config. -/
def closeTunnel (env : Env) (st : DbState) (tunnelId : String) (now : Nat) :
    Except SvcError Unit × DbState :=
  match tunnelsGetById st tunnelId with
  | none => (Except.error (SvcError.tunnelNotFound tunnelId), st)
  | some _ =>
    let st1 := tunnelsUpdateStatus st TunnelStatus.closed tunnelId
    let st2 := tunnelsUpdateEndTime st1 now tunnelId
    removeTunnelConfig env st2 tunnelId

/-- The loop in createTunnel that was written to close every active tunnel of
the client before creating the new one.  Each iteration awaits
exports.closeTunnel(tunnel.id) inside a per-iteration try/catch that only
logs.  This package runs as ES modules (package.json declares type module;
the sources use import.meta.url and .js import specifiers), and in an ES
module the CommonJS identifier `exports` is not defined, so every iteration
throws ReferenceError before closeTunnel runs and the catch swallows it: the
loop iterates over the fetched rows but changes no state. -/
def closeLoop (_env : Env) (_now : Nat) (st : DbState) (ts : List TunnelRow) : DbState :=
  ts.foldl (fun s _t => s) st

theorem closeLoop_eq (env : Env) (now : Nat) (st : DbState) (ts : List TunnelRow) :
    closeLoop env now st ts = st := by
  induction ts with
  | nil => rfl
  | cons u us ih => exact ih

/-- Request body of createTunnel. -/
structure CreateTunnelRequest where
  clientId : String
  localPort : Nat
  subdomain : Option String
deriving Repr

/-- The subdomain used by createTunnel: request.subdomain ||
generateRandomSubdomain().  A missing field and the empty string are both
falsy, so both fall back to the generator. -/
def requestedSubdomain (rand : Nat → Fin 36) (req : CreateTunnelRequest) : String :=
  match req.subdomain with
  | some s => if s == "" then generateRandomSubdomain rand 8 else s
  | none => generateRandomSubdomain rand 8

/-- The row inserted by tunnelsDb.create inside createTunnel. -/
def newTunnelRow (newId : String) (req : CreateTunnelRequest) (sub : String)
    (now : Nat) : TunnelRow :=
  { id := newId, clientId := req.clientId, localPort := req.localPort,
    publicSubdomain := sub, startTime := now, endTime := none,
    status := TunnelStatus.active, bytesSent := 0, bytesReceived := 0,
    requestCount := 0 }

/-- createTunnel: fetches the client, closes all of the active tunnels of the
client (this happens before the missing-client check in the source), fails if
the client is absent, resolves the subdomain, fails SubdomainTaken if any
tunnel row carries it, inserts the new row with status active, provisions
nginx, and builds the returned object whose publicUrl comes from
getTunnelUrl.  `newId` stands for the generated uuid and `now` for
Date.now(). -/
def createTunnel (env : Env) (rand : Nat → Fin 36) (newId : String) (now : Nat)
    (st : DbState) (req : CreateTunnelRequest) :
    Except SvcError (TunnelRow × String) × DbState :=
  let client? := clientsGetById st req.clientId
  let stc := closeLoop env now st (tunnelsGetActiveByClientId st req.clientId)
  match client? with
  | none => (Except.error (SvcError.clientNotFound req.clientId), stc)
  | some _client =>
    let sub := requestedSubdomain rand req
    match tunnelsGetBySubdomain stc sub with
    | some _ => (Except.error (SvcError.subdomainTaken sub), stc)
    | none =>
      let row := newTunnelRow newId req sub now
      let st1 := tunnelsCreate stc row
      match addTunnelConfig env st1 newId with
      | (Except.error e, st2) => (Except.error e, st2)
      | (Except.ok _, st2) =>
        match getTunnelUrl st2 row with
        | none => (Except.error SvcError.domainNotConfigured, st2)
        | some url => (Except.ok (row, url), st2)

/-! ## Address allocator and peer registration (services/wireguard.ts) -/

/-- Default value of WG_SERVER_IP: the fallback getNextAvailableIp uses when
the config row last_assigned_ip is absent, and also the database default
written by initializeDatabase for that row. -/
def wgServerIp : Ip := { a := 10, b := 8, c := 0, d := 1 }

/-- The arithmetic of getNextAvailableIp on the parsed octets: increment the
last octet modulo 255; when it wraps to 0, also increment the third octet
modulo 255.  The first two octets are never touched. -/
def nextIpParts (ip : Ip) : Ip :=
  let lastPart := (ip.d + 1) % 255
  let thirdPart := if lastPart == 0 then (ip.c + 1) % 255 else ip.c
  { a := ip.a, b := ip.b, c := thirdPart, d := lastPart }

/-- getNextAvailableIp: reads the cursor row last_assigned_ip (falling back
to WG_SERVER_IP), computes the incremented address, persists it back into
the config table before returning, and returns it. -/
def getNextAvailableIp (st : DbState) : Ip × DbState :=
  let lastIp := st.lastAssignedIp.getD wgServerIp
  let nextIp := nextIpParts lastIp
  (nextIp, { st with lastAssignedIp := some nextIp })

/-- Membership in the configured client address range.  The database default
for WG_CLIENT_IP_RANGE is the string 10.8.0.2-10.8.0.254, both ends sharing
the first three octets, so membership is: first three octets equal, last
octet between the two bounds. -/
def inClientRange (ip : Ip) : Bool :=
  ip.a == 10 && ip.b == 8 && ip.c == 0 && decide (2 ≤ ip.d) && decide (ip.d ≤ 254)

/-- addPeer: runs wg set (failure throws before any database write), then
inserts the client row. -/
def addPeer (env : Env) (st : DbState) (peer : ClientRow) :
    Except SvcError Unit × DbState :=
  if env.wgSetOk then
    let st1 : DbState := { st with wgPeers := st.wgPeers ++ [peer.publicKey] }
    (Except.ok (), clientsCreate st1 peer)
  else (Except.error SvcError.wgSetFailed, st)

/-- removePeer: looks the client up (missing throws), removes the interface
peer (failure throws with the database untouched), then runs
clientsDb.delete, whose foreign-key cascade also deletes the tunnels of the
client. -/
def removePeer (env : Env) (st : DbState) (peerId : String) :
    Except SvcError Unit × DbState :=
  match clientsGetById st peerId with
  | none => (Except.error (SvcError.peerNotFound peerId), st)
  | some peer =>
    if env.wgSetOk then
      let st1 : DbState :=
        { st with wgPeers := st.wgPeers.filter (fun k => !(k == peer.publicKey)) }
      (Except.ok (), clientsDelete st1 peerId)
    else (Except.error SvcError.wgSetFailed, st)

/-- registerClient: generates a uuid (`newId`), generates a key pair
(`pub`, `priv`; a wg genkey failure throws before anything else happens),
allocates and persists the next address, and calls addPeer.  `now` is the
Date.now() recorded in created_at. -/
def registerClient (env : Env) (newId : String) (pub : String) (priv : String)
    (name : String) (now : Nat) (st : DbState) :
    Except SvcError ClientRow × DbState :=
  if env.keygenOk then
    let (assignedIp, st1) := getNextAvailableIp st
    let peer : ClientRow :=
      { id := newId, name := name, publicKey := pub, privateKey := priv,
        assignedIp := assignedIp, createdAt := now, lastSeen := none,
        isActive := true }
    match addPeer env st1 peer with
    | (Except.ok _, st2) => (Except.ok peer, st2)
    | (Except.error e, st2) => (Except.error e, st2)
  else (Except.error SvcError.keygenFailed, st)

/-! ## API surface (api/tunnels.ts, the verifyApiKey middleware) -/

/-- An incoming HTTP request as far as the modelled handlers inspect it: the
optional X-API-Key header value. -/
structure ApiRequest where
  apiKeyHeader : Option String
deriving Repr

/-- verifyApiKey middleware: a missing header answers 401; otherwise the
provided key is hashed (the hash function is a parameter here) and looked up
in the api_keys table; no match answers 401; a match updates the last_used
timestamp of the matched row and passes control on (`none`). -/
def verifyApiKey (hash : String → String) (now : Nat) (keys : List ApiKeyRow)
    (req : ApiRequest) : Option Nat × List ApiKeyRow :=
  match req.apiKeyHeader with
  | none => (some 401, keys)
  | some k =>
    let hashed := hash k
    match keys.find? (fun r => r.keyHash == hashed) with
    | none => (some 401, keys)
    | some matched =>
      (none, keys.map (fun r => if r.id == matched.id then { r with lastUsed := some now } else r))

/-- listActiveTunnels (services/tunnel.ts): selects the rows with status
active and computes each publicUrl with getTunnelUrl; any thrown error (the
domain row being unset) is caught and the function returns the empty list.
Since getTunnelUrl fails for one tunnel exactly when it fails for all, the
catch collapses to: empty result when the domain is unset. -/
def listActiveTunnels (st : DbState) : List (TunnelRow × String) :=
  let actives := st.tunnels.filter (fun t => t.status == TunnelStatus.active)
  match st.domainConfig with
  | none => []
  | some d =>
    if d == "" then []
    else actives.map (fun t => (t, "https://" ++ t.publicSubdomain ++ "." ++ d))

/-- The GET /tunnels route as wired in the source: server/index.ts installs
only cors and json middleware, api/index.ts mounts the tunnel router
directly, and api/tunnels.ts maps the tunnels through getTunnelUrl inside a
try/catch answering 500 on a throw.  No route applies verifyApiKey, so the
request headers are never consulted.  Result: HTTP status plus body.  With
the domain row unset listActiveTunnels already returns [], so the mapping in
the handler cannot throw and the route answers 200. -/
def handleListTunnels (st : DbState) (_req : ApiRequest) :
    Nat × List (TunnelRow × String) :=
  (200, listActiveTunnels st)

/-! ## Reachable database states

Reachability closes the initial empty database under the modelled
operations, each taken at an arbitrary point of its input space (arbitrary
environment outcomes, timestamps, identifiers, oracle draws), keeping the
state the operation leaves behind whether it returns or throws. -/

/-- updateActiveStatus (PATCH /clients/:id/status). -/
def clientsUpdateActiveStatus (st : DbState) (b : Bool) (id : String) : DbState :=
  { st with clients := st.clients.map (fun c => if c.id == id then { c with isActive := b } else c) }

/-- updateMetrics (tunnelsDb.updateMetrics). -/
def tunnelsUpdateMetrics (st : DbState) (bs br rc : Nat) (id : String) : DbState :=
  { st with tunnels := st.tunnels.map (fun t =>
      if t.id == id then
        { t with bytesSent := t.bytesSent + bs, bytesReceived := t.bytesReceived + br,
                 requestCount := t.requestCount + rc }
      else t) }

/-- The empty database the server starts from: no rows, only the config
defaults (whose cursor default equals the getNextAvailableIp fallback, so it
is represented by `none` plus the fallback). -/
def initialDb : DbState :=
  { clients := [], tunnels := [], apiKeys := [], lastAssignedIp := none,
    domainConfig := none, nginxFiles := [], wgPeers := [] }

/-- States reachable from the empty database through the modelled
operations. -/
inductive Reachable : DbState → Prop where
  | init : Reachable initialDb
  | register (env : Env) (newId pub priv name : String) (now : Nat) (st : DbState) :
      Reachable st → Reachable (registerClient env newId pub priv name now st).2
  | create (env : Env) (rand : Nat → Fin 36) (newId : String) (now : Nat)
      (st : DbState) (req : CreateTunnelRequest) :
      Reachable st → Reachable (createTunnel env rand newId now st req).2
  | close (env : Env) (st : DbState) (tunnelId : String) (now : Nat) :
      Reachable st → Reachable (closeTunnel env st tunnelId now).2
  | remove (env : Env) (st : DbState) (peerId : String) :
      Reachable st → Reachable (removePeer env st peerId).2
  | patchStatus (st : DbState) (b : Bool) (id : String) :
      Reachable st → Reachable (clientsUpdateActiveStatus st b id)
  | metrics (st : DbState) (bs br rc : Nat) (id : String) :
      Reachable st → Reachable (tunnelsUpdateMetrics st bs br rc id)
  | setDomain (st : DbState) (d : String) :
      Reachable st → Reachable { st with domainConfig := some d }

/-- Referential integrity of the tunnels table: every tunnel row names an
existing client row. -/
def tunnelsReferenceClients (st : DbState) : Bool :=
  st.tunnels.all (fun t => st.clients.any (fun c => c.id == t.clientId))

/-! ## Concrete fixtures used by counterexamples and witnesses -/

/-- Environment in which every external invocation succeeds. -/
def envAllOk : Env :=
  { keygenOk := true, wgSetOk := true, nginxWriteOk := true, nginxReloadOk := true }

/-- A deterministic draw oracle that always picks index 0 (the letter a). -/
def randZero : Nat → Fin 36 := fun _ => 0

/-- A registered client, as a fixture. -/
def clientOne : ClientRow :=
  { id := "c1", name := "peer-one", publicKey := "pk1", privateKey := "sk1",
    assignedIp := { a := 10, b := 8, c := 0, d := 2 }, createdAt := 0,
    lastSeen := none, isActive := true }

/-- A second registered client, as a fixture. -/
def clientTwo : ClientRow :=
  { id := "c2", name := "peer-two", publicKey := "pk2", privateKey := "sk2",
    assignedIp := { a := 10, b := 8, c := 0, d := 3 }, createdAt := 0,
    lastSeen := none, isActive := true }

/-- A tunnel of clientOne on subdomain alpha that has already been closed. -/
def closedAlphaTunnel : TunnelRow :=
  { id := "t0", clientId := "c1", localPort := 3000, publicSubdomain := "alpha",
    startTime := 0, endTime := some 5, status := TunnelStatus.closed,
    bytesSent := 0, bytesReceived := 0, requestCount := 0 }

/-- Database holding clientOne, the closed alpha tunnel, and a configured
domain; no non-closed tunnel exists. -/
def stClosedAlpha : DbState :=
  { clients := [clientOne], tunnels := [closedAlphaTunnel], apiKeys := [],
    lastAssignedIp := some { a := 10, b := 8, c := 0, d := 2 },
    domainConfig := some "woof.example", nginxFiles := [], wgPeers := ["pk1"] }

/-! ## Helper lemmas about the tunnel operations -/

/-- Effect of one UPDATE pass of closeTunnel on a single row. -/
def closeFn (tid : String) (now : Nat) (t : TunnelRow) : TunnelRow :=
  if t.id == tid then { t with status := TunnelStatus.closed, endTime := some now } else t

theorem closeFn_id (tid : String) (now : Nat) (t : TunnelRow) :
    (closeFn tid now t).id = t.id := by
  unfold closeFn
  split <;> rfl

theorem closeFn_clientId (tid : String) (now : Nat) (t : TunnelRow) :
    (closeFn tid now t).clientId = t.clientId := by
  unfold closeFn
  split <;> rfl

theorem removeTunnelConfig_snd_tunnels (env : Env) (st : DbState) (id : String) :
    (removeTunnelConfig env st id).2.tunnels = st.tunnels := by
  unfold removeTunnelConfig
  split
  · split <;> rfl
  · rfl

theorem removeTunnelConfig_snd_clients (env : Env) (st : DbState) (id : String) :
    (removeTunnelConfig env st id).2.clients = st.clients := by
  unfold removeTunnelConfig
  split
  · split <;> rfl
  · rfl

theorem removeTunnelConfig_snd_domain (env : Env) (st : DbState) (id : String) :
    (removeTunnelConfig env st id).2.domainConfig = st.domainConfig := by
  unfold removeTunnelConfig
  split
  · split <;> rfl
  · rfl

theorem removeTunnelConfig_snd_files_subset (env : Env) (st : DbState) (id : String) :
    ∀ f ∈ (removeTunnelConfig env st id).2.nginxFiles, f ∈ st.nginxFiles := by
  unfold removeTunnelConfig
  intro f hf
  split at hf
  · split at hf <;> exact List.mem_of_mem_filter hf
  · exact hf

theorem closeTunnel_snd_tunnels (env : Env) (st : DbState) (tid : String) (now : Nat) :
    (closeTunnel env st tid now).2.tunnels = st.tunnels.map (closeFn tid now) := by
  unfold closeTunnel
  cases h : tunnelsGetById st tid with
  | none =>
    simp only
    have hnone : ∀ t ∈ st.tunnels, (fun t : TunnelRow => t.id == tid) t = false := by
      intro t ht
      simpa using List.find?_eq_none.mp h t ht
    have : ∀ t ∈ st.tunnels, closeFn tid now t = t := by
      intro t ht
      unfold closeFn
      simp [hnone t ht]
    rw [List.map_congr_left this, List.map_id']
  | some t0 =>
    simp only
    rw [removeTunnelConfig_snd_tunnels]
    unfold tunnelsUpdateEndTime tunnelsUpdateStatus
    simp only [List.map_map]
    apply List.map_congr_left
    intro t _
    simp only [Function.comp]
    unfold closeFn
    by_cases hid : (t.id == tid) = true
    · simp [hid]
    · simp only [Bool.not_eq_true] at hid
      simp [hid]

theorem closeTunnel_snd_clients (env : Env) (st : DbState) (tid : String) (now : Nat) :
    (closeTunnel env st tid now).2.clients = st.clients := by
  unfold closeTunnel
  cases h : tunnelsGetById st tid with
  | none => rfl
  | some t0 =>
    simp only
    rw [removeTunnelConfig_snd_clients]
    rfl

theorem closeTunnel_snd_domain (env : Env) (st : DbState) (tid : String) (now : Nat) :
    (closeTunnel env st tid now).2.domainConfig = st.domainConfig := by
  unfold closeTunnel
  cases h : tunnelsGetById st tid with
  | none => rfl
  | some t0 =>
    simp only
    rw [removeTunnelConfig_snd_domain]
    rfl

theorem closeTunnel_snd_files_subset (env : Env) (st : DbState) (tid : String) (now : Nat) :
    ∀ f ∈ (closeTunnel env st tid now).2.nginxFiles, f ∈ st.nginxFiles := by
  unfold closeTunnel
  cases h : tunnelsGetById st tid with
  | none => intro f hf; exact hf
  | some t0 =>
    simp only
    intro f hf
    have h2 := removeTunnelConfig_snd_files_subset env
      (tunnelsUpdateEndTime (tunnelsUpdateStatus st TunnelStatus.closed tid) now tid) tid f hf
    exact h2

theorem addTunnelConfig_snd_tunnels (env : Env) (st : DbState) (id : String) :
    (addTunnelConfig env st id).2.tunnels = st.tunnels := by
  unfold addTunnelConfig
  split
  · split <;> rfl
  · rfl

theorem addTunnelConfig_snd_clients (env : Env) (st : DbState) (id : String) :
    (addTunnelConfig env st id).2.clients = st.clients := by
  unfold addTunnelConfig
  split
  · split <;> rfl
  · rfl

theorem addTunnelConfig_snd_domain (env : Env) (st : DbState) (id : String) :
    (addTunnelConfig env st id).2.domainConfig = st.domainConfig := by
  unfold addTunnelConfig
  split
  · split <;> rfl
  · rfl

/-- Inversion of a successful createTunnel call: the returned row is the
inserted row (fresh id, requesting client, resolved subdomain, status
active), and the final tunnels table is the close-loop image of the original
one with the new row appended. -/
theorem createTunnel_ok_inv (env : Env) (rand : Nat → Fin 36) (newId : String)
    (now : Nat) (st : DbState) (req : CreateTunnelRequest)
    (out : TunnelRow × String) (st2 : DbState)
    (h : createTunnel env rand newId now st req = (Except.ok out, st2)) :
    out.1 = newTunnelRow newId req (requestedSubdomain rand req) now ∧
    st2.tunnels = st.tunnels ++ [out.1] ∧
    st2.domainConfig = st.domainConfig ∧
    st2.clients = st.clients ∧
    getTunnelUrl st2 out.1 = some out.2 := by
  unfold createTunnel at h
  simp only at h
  cases hc : clientsGetById st req.clientId with
  | none =>
    rw [hc] at h
    simp at h
  | some cl =>
    rw [hc] at h
    simp only at h
    cases hs : tunnelsGetBySubdomain
        (closeLoop env now st (tunnelsGetActiveByClientId st req.clientId))
        (requestedSubdomain rand req) with
    | some u =>
      rw [hs] at h
      simp at h
    | none =>
      rw [hs] at h
      simp only at h
      cases ha : addTunnelConfig env
          (tunnelsCreate (closeLoop env now st (tunnelsGetActiveByClientId st req.clientId))
            (newTunnelRow newId req (requestedSubdomain rand req) now)) newId with
      | mk res stMid =>
        rw [ha] at h
        cases res with
        | error e =>
          simp at h
        | ok u =>
          simp only at h
          cases hu : getTunnelUrl stMid
              (newTunnelRow newId req (requestedSubdomain rand req) now) with
          | none =>
            rw [hu] at h
            simp at h
          | some url =>
            rw [hu] at h
            simp only [Prod.mk.injEq, Except.ok.injEq] at h
            obtain ⟨hout, hst⟩ := h
            subst hst
            have hrow : out.1 = newTunnelRow newId req (requestedSubdomain rand req) now := by
              rw [← hout]
            have hurl2 : out.2 = url := by rw [← hout]
            have hmid1 := congrArg (fun s : Except SvcError Unit × DbState => s.2.tunnels) ha
            simp only [addTunnelConfig_snd_tunnels] at hmid1
            have hmid2 := congrArg (fun s : Except SvcError Unit × DbState => s.2.domainConfig) ha
            simp only [addTunnelConfig_snd_domain] at hmid2
            have hmid3 := congrArg (fun s : Except SvcError Unit × DbState => s.2.clients) ha
            simp only [addTunnelConfig_snd_clients] at hmid3
            refine ⟨hrow, ?_, ?_, ?_, ?_⟩
            · rw [← hmid1]
              unfold tunnelsCreate
              simp only
              rw [closeLoop_eq, hrow]
            · rw [← hmid2]
              unfold tunnelsCreate
              simp only
              rw [closeLoop_eq]
            · rw [← hmid3]
              unfold tunnelsCreate
              simp only
              rw [closeLoop_eq]
            · rw [hrow, hurl2]
              exact hu

/-- Database with one registered client and no tunnels, domain configured. -/
def stTwo : DbState :=
  { clients := [clientOne], tunnels := [], apiKeys := [],
    lastAssignedIp := some { a := 10, b := 8, c := 0, d := 2 },
    domainConfig := some "woof.example", nginxFiles := [], wgPeers := ["pk1"] }

/-- First request of the two-create scenario: explicit subdomain alpha. -/
def reqA : CreateTunnelRequest :=
  { clientId := "c1", localPort := 3000, subdomain := some "alpha" }

/-- Second request of the two-create scenario: no subdomain supplied. -/
def reqB : CreateTunnelRequest :=
  { clientId := "c1", localPort := 4000, subdomain := none }

/-- C2: the close-existing-tunnels step of createTunnel is dead at runtime
(the exports.closeTunnel call throws ReferenceError under the ES-module
runtime and the per-iteration catch swallows it), so after two successful
createTunnel calls for the same client BOTH tunnels are in status active and
the tunnel of the first call is not closed. -/
theorem c2_code_behavior :
    (createTunnel envAllOk randZero "t1" 10 stTwo reqA).1 =
      Except.ok (newTunnelRow "t1" reqA "alpha" 10, "https://alpha.woof.example") ∧
    (createTunnel envAllOk randZero "t2" 20
        (createTunnel envAllOk randZero "t1" 10 stTwo reqA).2 reqB).1 =
      Except.ok (newTunnelRow "t2" reqB "aaaaaaaa" 20, "https://aaaaaaaa.woof.example") ∧
    (((createTunnel envAllOk randZero "t2" 20
        (createTunnel envAllOk randZero "t1" 10 stTwo reqA).2 reqB).2.tunnels.filter
        (fun t => t.clientId == "c1" && t.status == TunnelStatus.active)).map
        (fun t => t.id)) = ["t1", "t2"] ∧
    ((createTunnel envAllOk randZero "t2" 20
        (createTunnel envAllOk randZero "t1" 10 stTwo reqA).2 reqB).2.tunnels.all
      (fun t => !(t.id == "t1") || t.status == TunnelStatus.active)) = true := by
  refine ⟨rfl, rfl, by decide, by decide⟩

/-- C1 counterexample: the only tunnel carrying subdomain alpha is closed, the
client exists, yet createTunnel with subdomain alpha fails SubdomainTaken
instead of succeeding. -/
theorem c1_counterexample :
    closedAlphaTunnel.status = TunnelStatus.closed ∧
    (stClosedAlpha.tunnels.all
      (fun t => !(t.publicSubdomain == "alpha") || t.status == TunnelStatus.closed)) = true ∧
    (clientsGetById stClosedAlpha "c1").isSome = true ∧
    (createTunnel envAllOk randZero "t1" 10 stClosedAlpha
        { clientId := "c1", localPort := 4000, subdomain := some "alpha" }).1 =
      Except.error (SvcError.subdomainTaken "alpha") := by
  refine ⟨rfl, by decide, by decide, rfl⟩

/-- C1 amended: the subdomain uniqueness check of createTunnel ranges over all
tunnel rows, closed ones included; a request whose explicit subdomain equals
the subdomain of any existing tunnel fails SubdomainTaken. -/
theorem c1_subdomain_check_includes_closed
    (env : Env) (rand : Nat → Fin 36) (newId : String) (now : Nat)
    (st : DbState) (cid s : String) (lp : Nat)
    (hc : (clientsGetById st cid).isSome = true)
    (hs : s ≠ "")
    (hex : ∃ t ∈ st.tunnels, t.publicSubdomain = s) :
    (createTunnel env rand newId now st
        { clientId := cid, localPort := lp, subdomain := some s }).1 =
      Except.error (SvcError.subdomainTaken s) := by
  obtain ⟨cl, hcl⟩ := Option.isSome_iff_exists.mp hc
  have hsub : requestedSubdomain rand
      { clientId := cid, localPort := lp, subdomain := some s } = s := by
    unfold requestedSubdomain
    simp only
    rw [if_neg]
    simp [hs]
  have hfind : (tunnelsGetBySubdomain
      (closeLoop env now st (tunnelsGetActiveByClientId st cid)) s).isSome = true := by
    rw [closeLoop_eq]
    unfold tunnelsGetBySubdomain
    rw [List.find?_isSome]
    obtain ⟨t, htmem, htsub⟩ := hex
    refine ⟨t, htmem, ?_⟩
    rw [htsub]
    simp
  obtain ⟨u, hu⟩ := Option.isSome_iff_exists.mp hfind
  unfold createTunnel
  simp only [hsub]
  rw [hcl, hu]

/-- C1 witness for the amended theorem: reusing the subdomain of a closed
tunnel at a concrete state. -/
theorem c1_witness :
    (createTunnel envAllOk randZero "t9" 11 stClosedAlpha
        { clientId := "c1", localPort := 5000, subdomain := some "alpha" }).1 =
      Except.error (SvcError.subdomainTaken "alpha") := by
  exact c1_subdomain_check_includes_closed envAllOk randZero "t9" 11 stClosedAlpha
    "c1" "alpha" 5000 (by decide) (by decide) ⟨closedAlphaTunnel, by decide, rfl⟩

/-- C4 counterexample: with the nginx write failing, createTunnel surfaces the
failure but the persisted tunnel row stays in status active (no row is marked
error) with no route artifact on disk. -/
theorem c4_counterexample :
    (createTunnel { envAllOk with nginxWriteOk := false } randZero "t1" 10 stClosedAlpha
        { clientId := "c1", localPort := 4000, subdomain := some "beta" }).1 =
      Except.error SvcError.nginxWriteFailed ∧
    ((createTunnel { envAllOk with nginxWriteOk := false } randZero "t1" 10 stClosedAlpha
        { clientId := "c1", localPort := 4000, subdomain := some "beta" }).2.tunnels.any
      (fun t => t.id == "t1" && t.status == TunnelStatus.active)) = true ∧
    ((createTunnel { envAllOk with nginxWriteOk := false } randZero "t1" 10 stClosedAlpha
        { clientId := "c1", localPort := 4000, subdomain := some "beta" }).2.nginxFiles.contains
      (tunnelFileName "t1")) = false ∧
    ((createTunnel { envAllOk with nginxWriteOk := false } randZero "t1" 10 stClosedAlpha
        { clientId := "c1", localPort := 4000, subdomain := some "beta" }).2.tunnels.any
      (fun t => t.status == TunnelStatus.error)) = false := by
  refine ⟨rfl, by decide, by decide, by decide⟩

/-- C4 amended: when route provisioning fails inside createTunnel, the failure
is surfaced to the caller, but the already persisted tunnel row is left in
status active with no route artifact; it is not marked error. -/
theorem c4_provision_failure_leaves_active
    (env : Env) (rand : Nat → Fin 36) (newId : String) (now : Nat)
    (st : DbState) (req : CreateTunnelRequest) (cl : ClientRow)
    (hcl : clientsGetById st req.clientId = some cl)
    (hs : tunnelsGetBySubdomain
        (closeLoop env now st (tunnelsGetActiveByClientId st req.clientId))
        (requestedSubdomain rand req) = none)
    (hw : env.nginxWriteOk = false)
    (hf : (st.nginxFiles.contains (tunnelFileName newId)) = false) :
    (createTunnel env rand newId now st req).1 = Except.error SvcError.nginxWriteFailed ∧
    newTunnelRow newId req (requestedSubdomain rand req) now ∈
      (createTunnel env rand newId now st req).2.tunnels ∧
    ((createTunnel env rand newId now st req).2.nginxFiles.contains
      (tunnelFileName newId)) = false := by
  have haddeq : addTunnelConfig env
      (tunnelsCreate (closeLoop env now st (tunnelsGetActiveByClientId st req.clientId))
        (newTunnelRow newId req (requestedSubdomain rand req) now)) newId =
      (Except.error SvcError.nginxWriteFailed,
        tunnelsCreate (closeLoop env now st (tunnelsGetActiveByClientId st req.clientId))
          (newTunnelRow newId req (requestedSubdomain rand req) now)) := by
    unfold addTunnelConfig
    rw [hw]
    simp
  unfold createTunnel
  simp only [hcl, hs, haddeq]
  refine ⟨trivial, ?_, ?_⟩
  · unfold tunnelsCreate
    simp only
    exact List.mem_append_right _ (List.mem_singleton.mpr rfl)
  · unfold tunnelsCreate
    simp only
    have hnot : tunnelFileName newId ∉ st.nginxFiles := by
      simp at hf
      exact hf
    have hnot2 : tunnelFileName newId ∉
        (closeLoop env now st (tunnelsGetActiveByClientId st req.clientId)).nginxFiles := by
      rw [closeLoop_eq]
      exact hnot
    simp [hnot2]

/-- C4 witness: the amended theorem applied at a concrete failing provision. -/
theorem c4_witness :
    (createTunnel { envAllOk with nginxWriteOk := false } randZero "t7" 12 stClosedAlpha
        { clientId := "c1", localPort := 4000, subdomain := some "gamma" }).1 =
      Except.error SvcError.nginxWriteFailed ∧
    newTunnelRow "t7" { clientId := "c1", localPort := 4000, subdomain := some "gamma" }
        (requestedSubdomain randZero
          { clientId := "c1", localPort := 4000, subdomain := some "gamma" }) 12 ∈
      (createTunnel { envAllOk with nginxWriteOk := false } randZero "t7" 12 stClosedAlpha
        { clientId := "c1", localPort := 4000, subdomain := some "gamma" }).2.tunnels ∧
    ((createTunnel { envAllOk with nginxWriteOk := false } randZero "t7" 12 stClosedAlpha
        { clientId := "c1", localPort := 4000, subdomain := some "gamma" }).2.nginxFiles.contains
      (tunnelFileName "t7")) = false := by
  exact c4_provision_failure_leaves_active { envAllOk with nginxWriteOk := false } randZero
    "t7" 12 stClosedAlpha { clientId := "c1", localPort := 4000, subdomain := some "gamma" }
    clientOne rfl rfl rfl (by decide)

theorem removeTunnelConfig_ok (env : Env) (st : DbState) (id : String)
    (hr : env.nginxReloadOk = true) :
    (removeTunnelConfig env st id).1 = Except.ok () := by
  simp only [removeTunnelConfig, hr, if_true]
  split <;> rfl

theorem removeTunnelConfig_clears (env : Env) (st : DbState) (id : String) :
    ((removeTunnelConfig env st id).2.nginxFiles.contains (tunnelFileName id)) = false := by
  unfold removeTunnelConfig
  split
  case _ hmem =>
    split <;> simp
  case _ hmem =>
    simpa using hmem

theorem closeTunnel_ok (env : Env) (st : DbState) (tid : String) (now : Nat)
    (ht : (tunnelsGetById st tid).isSome = true)
    (hr : env.nginxReloadOk = true) :
    (closeTunnel env st tid now).1 = Except.ok () ∧
    ((closeTunnel env st tid now).2.nginxFiles.contains (tunnelFileName tid)) = false := by
  obtain ⟨t0, ht0⟩ := Option.isSome_iff_exists.mp ht
  unfold closeTunnel
  rw [ht0]
  exact ⟨removeTunnelConfig_ok env _ tid hr, removeTunnelConfig_clears env _ tid⟩

theorem tunnelsGetById_after_close (env : Env) (st : DbState) (tid tid2 : String)
    (now : Nat) (ht : (tunnelsGetById st tid2).isSome = true) :
    (tunnelsGetById (closeTunnel env st tid now).2 tid2).isSome = true := by
  unfold tunnelsGetById at ht ⊢
  rw [List.find?_isSome] at ht ⊢
  obtain ⟨t0, hmem, hid⟩ := ht
  refine ⟨closeFn tid now t0, ?_, ?_⟩
  · rw [closeTunnel_snd_tunnels]
    exact List.mem_map_of_mem _ hmem
  · rw [closeFn_id]
    exact hid

/-- C5: closeTunnel is idempotent: called twice on the same id it succeeds
both times, the route artifact of the tunnel is gone after each call, and the
second artifact removal does not fail even though the artifact is absent. -/
theorem c5_close_idempotent (env : Env) (st : DbState) (tid : String) (now1 now2 : Nat)
    (ht : (tunnelsGetById st tid).isSome = true)
    (hr : env.nginxReloadOk = true) :
    (closeTunnel env st tid now1).1 = Except.ok () ∧
    ((closeTunnel env st tid now1).2.nginxFiles.contains (tunnelFileName tid)) = false ∧
    (closeTunnel env (closeTunnel env st tid now1).2 tid now2).1 = Except.ok () ∧
    ((closeTunnel env (closeTunnel env st tid now1).2 tid now2).2.nginxFiles.contains
      (tunnelFileName tid)) = false := by
  obtain ⟨hok1, hclear1⟩ := closeTunnel_ok env st tid now1 ht hr
  have ht2 := tunnelsGetById_after_close env st tid tid now1 ht
  obtain ⟨hok2, hclear2⟩ := closeTunnel_ok env (closeTunnel env st tid now1).2 tid now2 ht2 hr
  exact ⟨hok1, hclear1, hok2, hclear2⟩

/-- C5 witness: closing a concrete tunnel twice. -/
theorem c5_witness :
    (closeTunnel envAllOk stClosedAlpha "t0" 30).1 = Except.ok () ∧
    ((closeTunnel envAllOk stClosedAlpha "t0" 30).2.nginxFiles.contains
      (tunnelFileName "t0")) = false ∧
    (closeTunnel envAllOk (closeTunnel envAllOk stClosedAlpha "t0" 30).2 "t0" 31).1 =
      Except.ok () ∧
    ((closeTunnel envAllOk (closeTunnel envAllOk stClosedAlpha "t0" 30).2 "t0" 31).2.nginxFiles.contains
      (tunnelFileName "t0")) = false := by
  exact c5_close_idempotent envAllOk stClosedAlpha "t0" 30 31 (by decide) rfl

/-- C7: every successful createTunnel returns the tunnel together with the
public URL https://SUBDOMAIN.DOMAIN, where SUBDOMAIN is the supplied or
generated subdomain of the returned tunnel and DOMAIN is the configured
domain row. -/
theorem c7_public_url (env : Env) (rand : Nat → Fin 36) (newId : String)
    (now : Nat) (st : DbState) (req : CreateTunnelRequest)
    (out : TunnelRow × String) (st2 : DbState)
    (h : createTunnel env rand newId now st req = (Except.ok out, st2)) :
    out.1.publicSubdomain = requestedSubdomain rand req ∧
    ∃ d, st.domainConfig = some d ∧ d ≠ "" ∧
      out.2 = "https://" ++ out.1.publicSubdomain ++ "." ++ d := by
  obtain ⟨hrow, _, hdom, _, hurl⟩ := createTunnel_ok_inv _ _ _ _ _ _ _ _ h
  have hsub : out.1.publicSubdomain = requestedSubdomain rand req := by
    rw [hrow]
    rfl
  refine ⟨hsub, ?_⟩
  cases hd : st2.domainConfig with
  | none =>
    unfold getTunnelUrl at hurl
    rw [hd] at hurl
    exact absurd hurl (by simp)
  | some d =>
    unfold getTunnelUrl at hurl
    rw [hd] at hurl
    simp only at hurl
    split at hurl
    · exact absurd hurl (by simp)
    · case _ hde =>
      refine ⟨d, ?_, ?_, ?_⟩
      · rw [← hdom]
        exact hd
      · simpa using hde
      · have := Option.some.inj hurl
        exact this.symm
  
/-- C7 witness: a concrete successful call with explicit subdomain alpha and
domain woof.example. -/
theorem c7_witness :
    ("alpha" : String) = requestedSubdomain randZero reqA ∧
    ∃ d, stTwo.domainConfig = some d ∧ d ≠ "" ∧
      ("https://alpha.woof.example" : String) = "https://" ++ "alpha" ++ "." ++ d := by
  exact c7_public_url envAllOk randZero "t1" 10 stTwo reqA _ _ rfl

/-- An active tunnel of clientTwo occupying the subdomain the all-zero draw
oracle generates. -/
def activeAaaaTunnel : TunnelRow :=
  { id := "ta", clientId := "c2", localPort := 5000, publicSubdomain := "aaaaaaaa",
    startTime := 0, endTime := none, status := TunnelStatus.active,
    bytesSent := 0, bytesReceived := 0, requestCount := 0 }

/-- Database where the generated subdomain aaaaaaaa is already taken by an
active tunnel of another client. -/
def stCollision : DbState :=
  { clients := [clientOne, clientTwo], tunnels := [activeAaaaTunnel], apiKeys := [],
    lastAssignedIp := some { a := 10, b := 8, c := 0, d := 3 },
    domainConfig := some "woof.example", nginxFiles := [tunnelFileName "ta"],
    wgPeers := ["pk1", "pk2"] }

/-- C8 counterexample: with no subdomain supplied and the generated subdomain
colliding with an existing non-closed tunnel, createTunnel fails
SubdomainTaken instead of retrying another random subdomain. -/
theorem c8_counterexample :
    activeAaaaTunnel.status = TunnelStatus.active ∧
    (createTunnel envAllOk randZero "t1" 10 stCollision
        { clientId := "c1", localPort := 3000, subdomain := none }).1 =
      Except.error (SvcError.subdomainTaken "aaaaaaaa") := by
  exact ⟨rfl, rfl⟩

/-- C8 amended: a generated subdomain is always 8 characters drawn from the
lowercase-alphanumeric alphabet, but there is no retry: when the generated
subdomain collides with any existing tunnel row, the call fails
SubdomainTaken. -/
theorem c8_generated_subdomain
    (env : Env) (rand : Nat → Fin 36) (newId : String) (now : Nat)
    (st : DbState) (req : CreateTunnelRequest) (tr : TunnelRow) (cl : ClientRow)
    (hnone : req.subdomain = none)
    (hcl : clientsGetById st req.clientId = some cl)
    (hcol : tunnelsGetBySubdomain
        (closeLoop env now st (tunnelsGetActiveByClientId st req.clientId))
        (generateRandomSubdomain rand 8) = some tr) :
    (generateRandomSubdomain rand 8).length = 8 ∧
    (∀ ch ∈ (generateRandomSubdomain rand 8).toList, ch ∈ subdomainChars.toList) ∧
    (createTunnel env rand newId now st req).1 =
      Except.error (SvcError.subdomainTaken (generateRandomSubdomain rand 8)) := by
  refine ⟨?_, ?_, ?_⟩
  · unfold generateRandomSubdomain
    show ((List.range 8).map fun i => subdomainChars.toList.getD (rand i) 'a').length = 8
    simp
  · intro ch hch
    unfold generateRandomSubdomain at hch
    have hch2 : ch ∈ (List.range 8).map
        (fun i => subdomainChars.toList.getD (rand i) 'a') := hch
    obtain ⟨i, _, hieq⟩ := List.mem_map.mp hch2
    have hlt : ((rand i : Fin 36) : Nat) < subdomainChars.toList.length := by
      have h36 : subdomainChars.toList.length = 36 := by decide
      rw [h36]
      exact (rand i).isLt
    rw [← hieq, List.getD_eq_getElem _ _ hlt]
    exact List.getElem_mem hlt
  · have hsub : requestedSubdomain rand req = generateRandomSubdomain rand 8 := by
      unfold requestedSubdomain
      rw [hnone]
    unfold createTunnel
    simp only [hsub, hcl, hcol]

/-- C8 witness: the amended theorem at the colliding fixture with the
all-zero oracle. -/
theorem c8_witness :
    (generateRandomSubdomain randZero 8).length = 8 ∧
    (∀ ch ∈ (generateRandomSubdomain randZero 8).toList, ch ∈ subdomainChars.toList) ∧
    (createTunnel envAllOk randZero "t1" 10 stCollision
        { clientId := "c1", localPort := 3000, subdomain := none }).1 =
      Except.error (SvcError.subdomainTaken (generateRandomSubdomain randZero 8)) := by
  exact c8_generated_subdomain envAllOk randZero "t1" 10 stCollision
    { clientId := "c1", localPort := 3000, subdomain := none } activeAaaaTunnel clientOne
    rfl rfl rfl

/-- Environment in which key generation works but the wg set interface
command fails. -/
def envWgFail : Env :=
  { keygenOk := true, wgSetOk := false, nginxWriteOk := true, nginxReloadOk := true }

/-- C6 counterexample: a registration failing at the interface-apply step
(before the peer is applied) aborts, yet the persisted address-pool cursor
has moved from 10.8.0.2 to 10.8.0.3. -/
theorem c6_counterexample :
    (registerClient envWgFail "c9" "pk9" "sk9" "nine" 7 stClosedAlpha).1 =
      Except.error SvcError.wgSetFailed ∧
    stClosedAlpha.lastAssignedIp = some { a := 10, b := 8, c := 0, d := 2 } ∧
    (registerClient envWgFail "c9" "pk9" "sk9" "nine" 7 stClosedAlpha).2.lastAssignedIp =
      some { a := 10, b := 8, c := 0, d := 3 } ∧
    (registerClient envWgFail "c9" "pk9" "sk9" "nine" 7 stClosedAlpha).2.clients =
      stClosedAlpha.clients ∧
    (registerClient envWgFail "c9" "pk9" "sk9" "nine" 7 stClosedAlpha).2.wgPeers =
      stClosedAlpha.wgPeers := by
  refine ⟨rfl, by decide, by decide, by decide, by decide⟩

/-- C6 amended: a failure at the interface-apply step aborts the registration
with no client row, no interface peer and no tunnel change, but the
address-pool cursor has already been persisted by getNextAvailableIp and
stays advanced. -/
theorem c6_registration_failure_effects
    (env : Env) (newId pub priv name : String) (now : Nat) (st : DbState)
    (hk : env.keygenOk = true) (hw : env.wgSetOk = false) :
    (registerClient env newId pub priv name now st).1 = Except.error SvcError.wgSetFailed ∧
    (registerClient env newId pub priv name now st).2 =
      { st with lastAssignedIp := some (nextIpParts (st.lastAssignedIp.getD wgServerIp)) } := by
  unfold registerClient getNextAvailableIp addPeer
  rw [hk, hw]
  simp

/-- C6 witness: the amended theorem at the concrete failing registration. -/
theorem c6_witness :
    (registerClient envWgFail "c9" "pk9" "sk9" "nine" 7 stClosedAlpha).1 =
      Except.error SvcError.wgSetFailed ∧
    (registerClient envWgFail "c9" "pk9" "sk9" "nine" 7 stClosedAlpha).2 =
      { stClosedAlpha with
          lastAssignedIp := some (nextIpParts (stClosedAlpha.lastAssignedIp.getD wgServerIp)) } := by
  exact c6_registration_failure_effects envWgFail "c9" "pk9" "sk9" "nine" 7 stClosedAlpha
    rfl rfl

/-- N successive registrations (no deletions) against the empty database,
every external command succeeding; client i gets synthetic identifiers. -/
def registerMany (n : Nat) : DbState :=
  (List.range n).foldl
    (fun s i => (registerClient envAllOk ("cl" ++ Nat.repr i) ("pub" ++ Nat.repr i)
      ("prv" ++ Nat.repr i) "" 0 s).2)
    initialDb

/-- The addresses assigned by the first n registrations, in order. -/
def assignedIps (n : Nat) : List Ip :=
  (registerMany n).clients.map (fun c => c.assignedIp)

set_option maxRecDepth 4096 in
/-- C3 counterexample: in a run of 254 registrations with no deletions the
254th assigned address is 10.8.1.0, which lies outside the configured client
range 10.8.0.2-10.8.0.254 (the allocator never consults the range). -/
theorem c3_counterexample :
    (assignedIps 254).getLast? = some { a := 10, b := 8, c := 1, d := 0 } ∧
    inClientRange { a := 10, b := 8, c := 1, d := 0 } = false := by
  refine ⟨by decide, by decide⟩

theorem nextIpParts_no_wrap (x : Nat) (hx : x ≤ 252) :
    nextIpParts { a := 10, b := 8, c := 0, d := 1 + x } =
      { a := 10, b := 8, c := 0, d := 2 + x } := by
  unfold nextIpParts
  have hmod : (1 + x + 1) % 255 = 2 + x := by omega
  simp only [hmod]
  have hz : (2 + x == 0) = false := by
    simp
  rw [hz]
  simp

theorem registerMany_spec (n : Nat) (h : n ≤ 253) :
    (registerMany n).lastAssignedIp.getD wgServerIp = { a := 10, b := 8, c := 0, d := 1 + n } ∧
    (registerMany n).clients.map (fun c => c.assignedIp) =
      (List.range n).map (fun i => { a := 10, b := 8, c := 0, d := 2 + i }) := by
  induction n with
  | zero => exact ⟨rfl, rfl⟩
  | succ m ih =>
    have hm : m ≤ 253 := Nat.le_of_succ_le h
    have hm252 : m ≤ 252 := by omega
    obtain ⟨ihcur, ihips⟩ := ih hm
    have hunfold : registerMany (m + 1) =
        (registerClient envAllOk ("cl" ++ Nat.repr m) ("pub" ++ Nat.repr m)
          ("prv" ++ Nat.repr m) "" 0 (registerMany m)).2 := by
      unfold registerMany
      rw [List.range_succ, List.foldl_append]
      rfl
    rw [hunfold]
    unfold registerClient getNextAvailableIp addPeer
    simp only [envAllOk, if_true]
    rw [ihcur, nextIpParts_no_wrap m hm252]
    unfold clientsCreate
    constructor
    · have harith : 1 + (m + 1) = 2 + m := by omega
      rw [harith]
      rfl
    · simp only [List.map_append, ihips, List.range_succ]
      rfl

/-- C3 amended: for at most 253 registrations with no deletions starting from
the initial database, the assigned addresses are pairwise distinct and lie
within the configured client range; from the 254th allocation on, the
allocator (which never consults the range) leaves the range and, after the
two-octet space wraps, eventually repeats addresses. -/
theorem c3_addresses_distinct_in_range (n : Nat) (h : n ≤ 253) :
    (assignedIps n).Nodup ∧ ∀ ip ∈ assignedIps n, inClientRange ip = true := by
  obtain ⟨_, hips⟩ := registerMany_spec n h
  have hips2 : assignedIps n =
      (List.range n).map (fun i => { a := 10, b := 8, c := 0, d := 2 + i }) := hips
  constructor
  · rw [hips2]
    apply List.Nodup.map
    · intro a b hab
      have hd := congrArg Ip.d hab
      simp at hd
      omega
    · exact List.nodup_range n
  · intro ip hip
    rw [hips2] at hip
    obtain ⟨i, hi, hieq⟩ := List.mem_map.mp hip
    have hi2 : i < n := List.mem_range.mp hi
    rw [← hieq]
    unfold inClientRange
    simp
    omega

/-- C3 witness: the amended theorem at the largest in-range run length. -/
theorem c3_witness :
    (assignedIps 253).Nodup ∧ ∀ ip ∈ assignedIps 253, inClientRange ip = true := by
  exact c3_addresses_distinct_in_range 253 (by decide)

/-- Concrete stand-in for the sha256 hex digest used by the middleware. -/
def sampleHash : String → String := fun s => "sha256-" ++ s

/-- A provisioned API key row (hash of the plaintext key secret). -/
def apiKeyOne : ApiKeyRow :=
  { id := "k1", name := "Default API Key", keyHash := sampleHash "secret",
    createdAt := 0, lastUsed := none }

/-- An active tunnel of clientOne on subdomain alpha. -/
def activeAlphaTunnel : TunnelRow :=
  { id := "t3", clientId := "c1", localPort := 3000, publicSubdomain := "alpha",
    startTime := 0, endTime := none, status := TunnelStatus.active,
    bytesSent := 0, bytesReceived := 0, requestCount := 0 }

/-- A serving database: one client, one active tunnel, a provisioned API key
and a configured domain. -/
def stServing : DbState :=
  { clients := [clientOne], tunnels := [activeAlphaTunnel], apiKeys := [apiKeyOne],
    lastAssignedIp := some { a := 10, b := 8, c := 0, d := 2 },
    domainConfig := some "woof.example", nginxFiles := [tunnelFileName "t3"],
    wgPeers := ["pk1"] }

/-- C9: the verifyApiKey middleware answers 401 to a missing or invalid
X-API-Key header, but no route applies it, so GET /tunnels with no key runs
the operation and answers 200 with the tunnel list. -/
theorem c9_code_behavior :
    (verifyApiKey sampleHash 50 stServing.apiKeys { apiKeyHeader := none }).1 = some 401 ∧
    (verifyApiKey sampleHash 50 stServing.apiKeys { apiKeyHeader := some "wrong" }).1 = some 401 ∧
    (handleListTunnels stServing { apiKeyHeader := none }).1 = 200 ∧
    (handleListTunnels stServing { apiKeyHeader := none }).2 ≠ [] := by
  refine ⟨rfl, rfl, rfl, by decide⟩

theorem registerClient_snd_tunnels (env : Env) (i p q n : String) (now : Nat)
    (st : DbState) :
    (registerClient env i p q n now st).2.tunnels = st.tunnels := by
  by_cases hk : env.keygenOk = true
  · by_cases hw : env.wgSetOk = true
    · simp [registerClient, getNextAvailableIp, addPeer, clientsCreate, hk, hw]
    · simp [registerClient, getNextAvailableIp, addPeer, clientsCreate, hk, hw]
  · simp [registerClient, hk]

theorem registerClient_clients_superset (env : Env) (i p q n : String) (now : Nat)
    (st : DbState) :
    ∀ c ∈ st.clients, c ∈ (registerClient env i p q n now st).2.clients := by
  intro c hc
  by_cases hk : env.keygenOk = true
  · by_cases hw : env.wgSetOk = true
    · simp only [registerClient, getNextAvailableIp, addPeer, clientsCreate, hk, hw,
        if_true]
      exact List.mem_append_left _ hc
    · simp [registerClient, getNextAvailableIp, addPeer, clientsCreate, hk, hw, hc]
  · simp [registerClient, hk, hc]

theorem createTunnel_snd_clients (env : Env) (rand : Nat → Fin 36) (newId : String)
    (now : Nat) (st : DbState) (req : CreateTunnelRequest) :
    (createTunnel env rand newId now st req).2.clients = st.clients := by
  unfold createTunnel
  simp only
  cases hc : clientsGetById st req.clientId with
  | none => rw [closeLoop_eq]
  | some cl =>
    simp only
    cases hs : tunnelsGetBySubdomain
        (closeLoop env now st (tunnelsGetActiveByClientId st req.clientId))
        (requestedSubdomain rand req) with
    | some u => rw [closeLoop_eq]
    | none =>
      simp only
      cases ha : addTunnelConfig env
          (tunnelsCreate (closeLoop env now st (tunnelsGetActiveByClientId st req.clientId))
            (newTunnelRow newId req (requestedSubdomain rand req) now)) newId with
      | mk res stMid =>
        have h1 := congrArg (fun s : Except SvcError Unit × DbState => s.2.clients) ha
        simp only [addTunnelConfig_snd_clients] at h1
        cases res with
        | error e =>
          simp only
          rw [← h1]
          unfold tunnelsCreate
          simp only
          rw [closeLoop_eq]
        | ok u =>
          simp only
          split <;> ·
            simp only
            rw [← h1]
            unfold tunnelsCreate
            simp only
            rw [closeLoop_eq]

/-- Outcome of createTunnel on the tunnels table: either the table is
untouched (failure before the insert; the close loop never changes state), or
the new active row was appended, in which case the client had been found. -/
theorem createTunnel_tunnels_char (env : Env) (rand : Nat → Fin 36) (newId : String)
    (now : Nat) (st : DbState) (req : CreateTunnelRequest) :
    (createTunnel env rand newId now st req).2.tunnels = st.tunnels ∨
    ((createTunnel env rand newId now st req).2.tunnels =
      st.tunnels ++ [newTunnelRow newId req (requestedSubdomain rand req) now] ∧
      (clientsGetById st req.clientId).isSome = true) := by
  unfold createTunnel
  simp only
  cases hc : clientsGetById st req.clientId with
  | none =>
    left
    rw [closeLoop_eq]
  | some cl =>
    simp only
    cases hs : tunnelsGetBySubdomain
        (closeLoop env now st (tunnelsGetActiveByClientId st req.clientId))
        (requestedSubdomain rand req) with
    | some u =>
      left
      rw [closeLoop_eq]
    | none =>
      simp only
      cases ha : addTunnelConfig env
          (tunnelsCreate (closeLoop env now st (tunnelsGetActiveByClientId st req.clientId))
            (newTunnelRow newId req (requestedSubdomain rand req) now)) newId with
      | mk res stMid =>
        have h1 := congrArg (fun s : Except SvcError Unit × DbState => s.2.tunnels) ha
        simp only [addTunnelConfig_snd_tunnels] at h1
        have h2 : stMid.tunnels =
            st.tunnels ++ [newTunnelRow newId req (requestedSubdomain rand req) now] := by
          rw [← h1]
          unfold tunnelsCreate
          simp only
          rw [closeLoop_eq]
        cases res with
        | error e =>
          right
          exact ⟨h2, rfl⟩
        | ok u =>
          simp only
          split
          · right
            exact ⟨h2, rfl⟩
          · right
            exact ⟨h2, rfl⟩

theorem removePeer_ok_inv (env : Env) (st : DbState) (peerId : String)
    (r : Unit) (st2 : DbState)
    (h : removePeer env st peerId = (Except.ok r, st2)) :
    st2.tunnels = st.tunnels.filter (fun t => !(t.clientId == peerId)) ∧
    st2.clients = st.clients.filter (fun c => !(c.id == peerId)) := by
  unfold removePeer at h
  cases hcl : clientsGetById st peerId with
  | none =>
    rw [hcl] at h
    simp at h
  | some peer =>
    rw [hcl] at h
    simp only at h
    split at h
    · simp only [Prod.mk.injEq, Except.ok.injEq] at h
      obtain ⟨_, hst⟩ := h
      subst hst
      exact ⟨rfl, rfl⟩
    · simp at h

theorem removePeer_snd_char (env : Env) (st : DbState) (peerId : String) :
    (removePeer env st peerId).2 = st ∨
    ((removePeer env st peerId).2.tunnels =
        st.tunnels.filter (fun t => !(t.clientId == peerId)) ∧
      (removePeer env st peerId).2.clients =
        st.clients.filter (fun c => !(c.id == peerId))) := by
  unfold removePeer
  cases hcl : clientsGetById st peerId with
  | none => exact Or.inl rfl
  | some peer =>
    simp only
    split
    · exact Or.inr ⟨rfl, rfl⟩
    · exact Or.inl rfl

/-- The referential-integrity predicate in its propositional form. -/
theorem refsOk_iff (st : DbState) :
    tunnelsReferenceClients st = true ↔
      ∀ t ∈ st.tunnels, ∃ c ∈ st.clients, (c.id == t.clientId) = true := by
  unfold tunnelsReferenceClients
  simp [List.all_eq_true, List.any_eq_true]

/-- Referential integrity of the tunnels table holds in every reachable
state. -/
theorem reachable_refsOk (st : DbState) (h : Reachable st) :
    tunnelsReferenceClients st = true := by
  induction h with
  | init => decide
  | register env newId pub priv name now st _ ih =>
    rw [refsOk_iff] at ih ⊢
    intro t ht
    rw [registerClient_snd_tunnels] at ht
    obtain ⟨c, hcmem, hcid⟩ := ih t ht
    exact ⟨c, registerClient_clients_superset env newId pub priv name now st c hcmem, hcid⟩
  | create env rand newId now st req _ ih =>
    rw [refsOk_iff] at ih ⊢
    intro t ht
    rw [createTunnel_snd_clients]
    rcases createTunnel_tunnels_char env rand newId now st req with hchar | ⟨hchar, hcl⟩
    · rw [hchar] at ht
      exact ih t ht
    · rw [hchar] at ht
      rcases List.mem_append.mp ht with hleft | hright
      · exact ih t hleft
      · have ht2 : t = newTunnelRow newId req (requestedSubdomain rand req) now :=
          List.mem_singleton.mp hright
        unfold clientsGetById at hcl
        rw [List.find?_isSome] at hcl
        obtain ⟨c, hcmem, hcid⟩ := hcl
        refine ⟨c, hcmem, ?_⟩
        rw [ht2]
        exact hcid
  | close env st tunnelId now _ ih =>
    rw [refsOk_iff] at ih ⊢
    intro t ht
    rw [closeTunnel_snd_tunnels] at ht
    rw [closeTunnel_snd_clients]
    obtain ⟨u, humem, hueq⟩ := List.mem_map.mp ht
    obtain ⟨c, hcmem, hcid⟩ := ih u humem
    refine ⟨c, hcmem, ?_⟩
    rw [← hueq, closeFn_clientId]
    exact hcid
  | remove env st peerId _ ih =>
    rw [refsOk_iff] at ih ⊢
    intro t ht
    rcases removePeer_snd_char env st peerId with hsame | ⟨htun, hcli⟩
    · rw [hsame] at ht ⊢
      exact ih t ht
    · rw [htun] at ht
      rw [hcli]
      have htpair := List.mem_filter.mp ht
      obtain ⟨htmem, htpred⟩ := htpair
      obtain ⟨c, hcmem, hcid⟩ := ih t htmem
      refine ⟨c, List.mem_filter.mpr ⟨hcmem, ?_⟩, hcid⟩
      simp only [beq_iff_eq] at hcid
      simp only [Bool.not_eq_eq_eq_not, Bool.not_true, beq_eq_false_iff_ne, ne_eq] at htpred ⊢
      rw [hcid]
      exact htpred
  | patchStatus st b id _ ih =>
    rw [refsOk_iff] at ih ⊢
    intro t ht
    unfold clientsUpdateActiveStatus at ht ⊢
    simp only at ht
    obtain ⟨c, hcmem, hcid⟩ := ih t ht
    refine ⟨if c.id == id then { c with isActive := b } else c, ?_, ?_⟩
    · simp only
      exact List.mem_map_of_mem _ hcmem
    · split <;> exact hcid
  | metrics st bs br rc id _ ih =>
    rw [refsOk_iff] at ih ⊢
    intro t ht
    unfold tunnelsUpdateMetrics at ht ⊢
    simp only at ht
    obtain ⟨u, humem, hueq⟩ := List.mem_map.mp ht
    obtain ⟨c, hcmem, hcid⟩ := ih u humem
    refine ⟨c, hcmem, ?_⟩
    rw [← hueq]
    have : (if u.id == id then
        { u with bytesSent := u.bytesSent + bs, bytesReceived := u.bytesReceived + br,
                 requestCount := u.requestCount + rc }
      else u).clientId = u.clientId := by
      split <;> rfl
    rw [this]
    exact hcid
  | setDomain st d _ ih =>
    rw [refsOk_iff] at ih ⊢
    intro t ht
    exact ih t ht

/-- C10: clientsDb.delete cascades (foreign keys on), so a successful
removePeer leaves no tunnel row of the deleted client, and in every reachable
database state each tunnel row references an existing client row. -/
theorem c10_cascade_and_integrity :
    (∀ (env : Env) (st : DbState) (peerId : String) (r : Unit) (st2 : DbState),
      removePeer env st peerId = (Except.ok r, st2) →
      st2.tunnels.all (fun t => !(t.clientId == peerId)) = true) ∧
    (∀ st : DbState, Reachable st → tunnelsReferenceClients st = true) := by
  constructor
  · intro env st peerId r st2 h
    obtain ⟨htun, _⟩ := removePeer_ok_inv env st peerId r st2 h
    rw [htun, List.all_eq_true]
    intro t ht
    exact (List.mem_filter.mp ht).2
  · exact reachable_refsOk

/-- C10 witness: deleting the client of the serving fixture leaves no tunnel
row of that client, and the initial reachable state satisfies referential
integrity. -/
theorem c10_witness :
    ((removePeer envAllOk stServing "c1").2.tunnels.all
      (fun t => !(t.clientId == "c1")) = true) ∧
    tunnelsReferenceClients initialDb = true := by
  have h := c10_cascade_and_integrity
  exact ⟨h.1 envAllOk stServing "c1" () _ rfl, h.2 initialDb Reachable.init⟩
